import Mathlib

/-!
A shallow embedding of the Platform Detection & Event Normalization Engine of
`ga4-logger.py` (with its configuration defaults from `config.py`), together
with theorems checking the specification's claims about it.

Conventions:
* Python `dict[str, str]` values (request parameters, caches, product records)
  are embedded as association lists `List (String × String)` in insertion
  order; `List.lookup` is Python `dict.get` (keys are unique wherever the
  source relies on it).
* Python string primitives (`startswith`, `in`, slicing, `lower`) are embedded
  as executable functions over the character list `String.data`.
* The repository's `config.json` is not part of the source tree; components
  that read it (the platform registry, the sGTM indicator lists) are therefore
  parameters of the embedding, and the literal fallback defaults hard-coded in
  `config.py` are provided as concrete values.
-/

namespace GA4Logger

/-- Request parameters / generic string-keyed dictionaries: association lists
in insertion order, `List.lookup` playing the role of `dict.get`. -/
abbrev Params := List (String × String)

/-- Embedding of Python `s.startswith(p)` (true character prefix test). -/
def strStartsWith (s p : String) : Bool :=
  decide (p.data <+: s.data)

/-- Embedding of Python `sub in s` (contiguous substring test). -/
def strContains (s sub : String) : Bool :=
  decide (sub.data <:+: s.data)

/-- Embedding of Python `s.endswith(p)` (character suffix test). -/
def strEndsWith (s p : String) : Bool :=
  decide (p.data <:+ s.data)

/-- Embedding of Python `s[:n]` (first `n` characters). -/
def strTake (s : String) (n : Nat) : String :=
  ⟨s.data.take n⟩

/-- Embedding of Python `s[n:]` (all but the first `n` characters). -/
def strDrop (s : String) (n : Nat) : String :=
  ⟨s.data.drop n⟩

/-- Embedding of Python `len(s)` (number of characters). -/
def strLen (s : String) : Nat :=
  s.data.length

/-- Embedding of Python `s.lower()` restricted to ASCII (the inputs the code
compares against are ASCII literals). -/
def strLower (s : String) : String :=
  ⟨s.data.map Char.toLower⟩

/-!
## Server-Side Tracking Scorer (`_advanced_server_side_detection` and helpers)

The indicator keyword lists come from `config.json`'s `serverTracking` section
with literal fallbacks in `config.py` (`SGTM_INDICATORS`); the scorer is
parameterized by them, and `defaultSgtmIndicators` records the `config.py`
fallback literals.  Only the keys the scorer reads are represented.
-/

/-- The sGTM indicator keyword lists (`SGTM_INDICATORS` in `config.py`),
restricted to the entries read by the scorer. -/
structure SgtmIndicators where
  ga4Params : List String
  consentParams : List String
  gtmIdPrefixes : List String
  trackingIdPrefixes : List String
  eventParams : List String
  trackingParams : List String
  sessionParams : List String
  valueParams : List String
  ecommerceParams : List String
  timestampParams : List String
  serverGtmParams : List String

/-- The fallback literals hard-coded in `config.py` for `SGTM_INDICATORS`. -/
def defaultSgtmIndicators : SgtmIndicators where
  ga4Params := ["en", "cid", "sid", "_p", "dl", "dr", "dt"]
  consentParams := ["gcs", "dma", "dma_cps", "gdpr", "gdpr_consent"]
  gtmIdPrefixes := ["GTM-", "G-", "AW-", "DC-"]
  trackingIdPrefixes := ["G-", "GA-", "GTM-", "AW-", "DC-"]
  eventParams := ["event", "event_name", "en", "ev", "action", "event_action",
    "category", "event_category"]
  trackingParams := ["track", "tracking", "pixel", "pixel_id", "id", "user_id",
    "uid", "client_id", "cid"]
  sessionParams := ["session", "session_id", "sid", "visit", "visit_id", "s"]
  valueParams := ["value", "revenue", "price", "amount", "val", "total"]
  ecommerceParams := ["currency", "item_id", "product_id", "sku", "quantity",
    "product_name", "item_name"]
  timestampParams := ["timestamp", "time", "t", "_p", "ts"]
  serverGtmParams := ["gtm", "container_id", "gtm_container", "server_container_url"]

/-- Embedding of `UnifiedPlatformDetector._count_matching_params`:
`sum(1 for p in indicators if p in params)`. -/
def countMatchingParams (params : Params) (indicators : List String) : Nat :=
  (indicators.filter (fun p => (params.lookup p).isSome)).length

/-- Embedding of `UnifiedPlatformDetector._has_any_params`:
`any(p in params for p in indicators)`. -/
def hasAnyParams (params : Params) (indicators : List String) : Bool :=
  indicators.any (fun p => (params.lookup p).isSome)

/-- The `has_gtm_container` local of `_advanced_server_side_detection`:
the `gtm` parameter is non-empty and either starts with one of the configured
container-id prefixes or is longer than 10 characters. -/
def hasGtmContainer (ind : SgtmIndicators) (params : Params) : Bool :=
  let gtm_id := (params.lookup "gtm").getD ""
  gtm_id != "" &&
    (ind.gtmIdPrefixes.any (fun p => strStartsWith gtm_id p) || strLen gtm_id > 10)

/-- The `has_tracking_id` local of `_advanced_server_side_detection`:
the `tid` parameter is non-empty and starts with a tracking-id prefix. -/
def hasTrackingId (ind : SgtmIndicators) (params : Params) : Bool :=
  let tid := (params.lookup "tid").getD ""
  tid != "" && ind.trackingIdPrefixes.any (fun p => strStartsWith tid p)

/-- Embedding of `UnifiedPlatformDetector._calculate_sgtm_score`: the weighted sum of the
scorer's signals, written as one sum of guarded weights in the source's
order (the source accumulates `score += w` under `if` statements). -/
def calculateSgtmScore (ind : SgtmIndicators) (params : Params)
    (has_gtm_container has_tracking_id : Bool) : Nat :=
  (if has_gtm_container then 4 else 0) +
  (if has_tracking_id then 2 else 0) +
  (if 3 ≤ countMatchingParams params ind.ga4Params then 2 else 0) +
  (if hasAnyParams params ind.consentParams then 1 else 0) +
  (if 1 ≤ countMatchingParams params ind.serverGtmParams then 2 else 0) +
  (if hasAnyParams params ind.eventParams then 3 else 0) +
  (if 2 ≤ countMatchingParams params ind.trackingParams then 2 else 0) +
  (if hasAnyParams params ind.sessionParams then 1 else 0) +
  (if hasAnyParams params ind.valueParams then 1 else 0) +
  (if 2 ≤ countMatchingParams params ind.ecommerceParams then 2 else 0) +
  (if hasAnyParams params ind.timestampParams then 1 else 0) +
  (if (params.lookup "en").isSome && (params.lookup "cid").isSome then 1 else 0) +
  (if (params.lookup "gcs").isSome then 1 else 0)

/-- The result dictionary of `_detect_server_side_tracking` /
`_advanced_server_side_detection`. -/
structure DetectionResult where
  isServerSide : Bool
  platform : String
  score : Nat
deriving DecidableEq, Repr

/-- Embedding of `UnifiedPlatformDetector._advanced_server_side_detection` (the `host` and
`path` arguments are unused by the computation, as in the source, where they
only feed debug logging). -/
def advancedServerSideDetection (ind : SgtmIndicators)
    (host path : String) (params : Params) : DetectionResult :=
  let has_gtm_container := hasGtmContainer ind params
  let has_tracking_id := hasTrackingId ind params
  let score := calculateSgtmScore ind params has_gtm_container has_tracking_id
  { isServerSide := 1 ≤ score
    platform := if 3 ≤ score then "sGTM" else "Custom Tracking"
    score := score }

/-!
## Platform Registry and Platform Detector (`UnifiedPlatformDetector`)

The registry (`PLATFORMS` in `config.py`) is loaded from `config.json`, which is
not part of the source tree, so the embedding is parameterized by it: an
insertion-ordered association list of platform name to configuration, iterated
in order exactly like `PLATFORMS.items()`.
-/

/-- Embedding of `PlatformConfig` (`config_loader.py`), restricted to the fields the
detector reads. -/
structure PlatformConfig where
  hosts : List String
  paths : List String
deriving DecidableEq, Repr

/-- The `PLATFORMS` table: platform name → config, in table order. -/
abbrev Registry := List (String × PlatformConfig)

/-- The `known_platform_hosts` union built by `_check_server_side_tracking`
(all hosts of all registry configs). -/
def registryHosts (registry : Registry) : List String :=
  registry.flatMap (fun pc => pc.2.hosts)

/-- The GA4 collection paths listed in `_is_regional_ga4`. -/
def ga4Paths : List String :=
  ["/g/collect", "/g/s/collect", "/collect", "/r/collect", "/gtag/js",
   "/mp/collect", "/td"]

/-- Characters `a`-`z` (the regex class `[a-z]`). -/
def isLowerAlpha (c : Char) : Bool :=
  'a' ≤ c && c ≤ 'z'

/-- Matcher for the regional host regexes of `_is_regional_ga4`, specialized
to their shape: `region` followed by one or more digits, or two to five
lowercase letters followed by zero or more digits, then the literal suffix
(`.analytics.google.com` or `.google-analytics.com`).  `re.match` with a
trailing `$` on newline-free hostnames is a full-string match. -/
def matchesRegionalPattern (host : String) : Bool :=
  let suffixes := [".analytics.google.com", ".google-analytics.com"]
  let l := host.data
  suffixes.any (fun suf =>
    -- region\d+<suf>
    (l.take 6 = "region".data &&
      (let rest := l.drop 6
       let ds := rest.takeWhile Char.isDigit
       decide (ds ≠ []) && decide (rest.drop ds.length = suf.data))) ||
    -- [a-z]{2,5}\d*<suf>
    ([2, 3, 4, 5].any (fun k =>
      decide (k ≤ l.length) && (l.take k).all isLowerAlpha &&
        (let rest := l.drop k
         let ds := rest.takeWhile Char.isDigit
         decide (rest.drop ds.length = suf.data)))))

/-- Embedding of `UnifiedPlatformDetector._is_regional_ga4`: the path must start with a GA4
collection path and the host must match a regional analytics pattern. -/
def isRegionalGA4 (host path : String) : Bool :=
  ga4Paths.any (fun p => strStartsWith path p) && matchesRegionalPattern host

/-- Embedding of `UnifiedPlatformDetector._detect_standard_platform`: Taboola and `/gtm.js`
special cases, then host+path registry lookup, then host-only fallback, then
`"Custom Tracking"`. -/
def detectStandardPlatform (registry : Registry) (host path : String) : String :=
  if host == "trc.taboola.com" && strContains path "/trc/" then "Taboola"
  else if path == "/gtm.js" || strStartsWith path "/gtm.js?" then "GA4"
  else match registry.find? (fun pc =>
      pc.2.hosts.contains host && pc.2.paths.any (fun p => strStartsWith path p)) with
    | some pc => pc.1
    | none =>
      match registry.find? (fun pc => pc.2.hosts.contains host) with
      | some pc => pc.1
      | none => "Custom Tracking"

/-- Embedding of `UnifiedPlatformDetector._check_server_side_tracking`.  The flattened
request parameters are taken directly (the source extracts them from the flow
via `_get_all_params`); `advanced_scoring=True` selects
`_advanced_server_side_detection`. -/
def checkServerSideTracking (ind : SgtmIndicators) (registry : Registry)
    (host path : String) (params : Params) : Option String :=
  if host == "trc.taboola.com" && strContains path "/trc/" then none
  else if (registryHosts registry).contains host then none
  else
    let r := advancedServerSideDetection ind host path params
    if r.isServerSide && r.platform == "sGTM" then some "sGTM"
    else if r.isServerSide && r.platform == "Custom Tracking" then some "Custom Tracking"
    else none

/-- The detector's memoization cache `platform_cache`: a `dict` keyed by
`f"{host}:{path}"`, kept as an insertion-ordered association list. -/
abbrev Cache := List (String × String)

/-- The cache key `f"{host}:{path}"`. -/
def mkKey (host path : String) : String :=
  host ++ ":" ++ path

/-- A fresh `dict` assignment `platform_cache[key] = v` (in `detect_platform`
the key was just found absent, so insertion appends). -/
def cacheInsert (cache : Cache) (key v : String) : Cache :=
  cache ++ [(key, v)]

/-- The privacy-sandbox path condition of `detect_platform`'s first branch:
`"/privacy-sandbox" in path or "/privacy_sandbox" in path`. -/
def privacyPath (path : String) : Bool :=
  strContains path "/privacy-sandbox" || strContains path "/privacy_sandbox"

/-- The hosts of the Google Consent Collection branch of `detect_platform`. -/
def ccmHosts : List String :=
  ["www.google.com", "google.com", "www.googletagmanager.com", "googletagmanager.com"]

/-- Embedding of `UnifiedPlatformDetector.detect_platform`: cache lookup, then the priority
chain (privacy-sandbox path, consent collection, regional GA4, scored
server-side branch, standard registry detection), each branch caching its
label.  `flowParams = none` models `flow=None` (the scored branch is skipped);
`flowParams = some ps` models a flow whose extracted parameters are `ps`.
Returns the label and the updated cache. -/
def detectPlatform (ind : SgtmIndicators) (registry : Registry) (cache : Cache)
    (host path : String) (flowParams : Option Params) : String × Cache :=
  match cache.lookup (mkKey host path) with
  | some v => (v, cache)
  | none =>
    if privacyPath path then
      ("Privacy Sandbox", cacheInsert cache (mkKey host path) "Privacy Sandbox")
    else if path == "/ccm/collect" && ccmHosts.contains host then
      ("Google Consent Collection",
       cacheInsert cache (mkKey host path) "Google Consent Collection")
    else if isRegionalGA4 host path then
      ("GA4", cacheInsert cache (mkKey host path) "GA4")
    else if (match flowParams with
        | some ps => checkServerSideTracking ind registry host path ps
        | none => none) == some "sGTM" then
      ("sGTM", cacheInsert cache (mkKey host path) "sGTM")
    else
      (detectStandardPlatform registry host path,
       cacheInsert cache (mkKey host path) (detectStandardPlatform registry host path))

/-- One `detect_platform` invocation: host, path, and the flow's flattened
parameters (`none` = no flow passed). -/
abbrev Call := String × String × Option Params

/-- A sequence of `detect_platform` calls threading the shared cache. -/
def runCalls (ind : SgtmIndicators) (registry : Registry) :
    Cache → List Call → Cache
  | cache, [] => cache
  | cache, (h, p, ps) :: rest =>
      runCalls ind registry (detectPlatform ind registry cache h p ps).2 rest

/-- Embedding of `UnifiedPlatformDetector.clear_cache`: once the cache holds more than 200
entries, retain only the entries whose value is in the fixed allow-list and
drop the rest; below the bound it does nothing.  (No caller of this method
exists anywhere in the repository.) -/
def clearCache (cache : Cache) : Cache :=
  if cache.length > 200 then
    cache.filter (fun kv =>
      ["GA4", "Facebook", "TikTok", "Google Ads", "sGTM"].contains kv.2)
  else cache

/-!
## E-commerce product sub-extractor (`parse_product_data`)
-/

/-- Hex digit test, as in `urllib.parse.unquote`'s escape recognition. -/
def isHexDigit (c : Char) : Bool :=
  c.isDigit || ('a' ≤ c && c ≤ 'f') || ('A' ≤ c && c ≤ 'F')

/-- Value of a hex digit. -/
def hexVal (c : Char) : Nat :=
  if c.isDigit then c.toNat - '0'.toNat
  else if 'a' ≤ c && c ≤ 'f' then c.toNat - 'a'.toNat + 10
  else c.toNat - 'A'.toNat + 10

/-- Embedding of `urllib.parse.unquote` on the character list, restricted to
single-byte (ASCII) percent escapes: `%XY` with two hex digits becomes the
character with code `16*X+Y`, malformed escapes are kept literally.
(Multi-byte UTF-8 escape sequences are outside the modeled inputs.) -/
def unquoteData : List Char → List Char
  | '%' :: a :: b :: rest =>
      if isHexDigit a && isHexDigit b then
        Char.ofNat (16 * hexVal a + hexVal b) :: unquoteData rest
      else '%' :: unquoteData (a :: b :: rest)
  | c :: rest => c :: unquoteData rest
  | [] => []

/-- Embedding of `urllib.parse.unquote` on strings. -/
def unquote (s : String) : String :=
  ⟨unquoteData s.data⟩

/-- Embedding of Python `str.split(sep)` for a single-character separator:
`"".split(c) = [""]`, and consecutive separators produce empty fields. -/
def splitChar (c : Char) : List Char → List (List Char)
  | [] => [[]]
  | x :: xs =>
      let r := splitChar c xs
      if x == c then [] :: r
      else match r with
        | h :: t => (x :: h) :: t
        | [] => [[x]]

/-- Python `dict` assignment `d[k] = v`: overwrite in place if the key exists,
otherwise append. -/
def dictUpdate (d : Params) (k v : String) : Params :=
  match d with
  | [] => [(k, v)]
  | (k', v') :: tl => if k' == k then (k, v) :: tl else (k', v') :: dictUpdate tl k v

/-- The product-parameter name test of `parse_product_data`:
`k.startswith('pr') and k[2:].isdigit()` (Python `isdigit` is false on the
empty string; ASCII digits). -/
def isProductKey (k : String) : Bool :=
  strStartsWith k "pr" && decide (k.data.drop 2 ≠ []) && (k.data.drop 2).all Char.isDigit

/-- The prefix → canonical-field table of `parse_product_data`. -/
def productPrefixMap : List (String × String) :=
  [("nm", "name"), ("id", "id"), ("pr", "price"), ("br", "brand"),
   ("ca", "category"), ("qt", "quantity")]

/-- The per-value body of `parse_product_data`'s loop: URL-unquote, split on
`~`, and for every token longer than two characters whose two-character prefix
is in the table, record the canonical field. -/
def parseProductValue (v : String) : Params :=
  let decoded := unquote v
  (splitChar '~' decoded.data).foldl
    (fun acc part =>
      if 2 < part.length then
        let pfx : String := ⟨part.take 2⟩
        let value : String := ⟨part.drop 2⟩
        match productPrefixMap.lookup pfx with
        | some canonical => dictUpdate acc canonical value
        | none => acc
      else acc)
    []

/-- Embedding of `parse_product_data`: filter the parameters whose name matches
`pr<digits>`, parse each value, and keep the non-empty product records (the
source's `try`/`except continue` cannot fire in the embedding: every step is
total). -/
def parseProductData (data : Params) : List Params :=
  (data.filter (fun kv => isProductKey kv.1)).filterMap
    (fun kv =>
      let p := parseProductValue kv.2
      if p ≠ [] then some p else none)

/-!
## JSON flattener (`UnifiedRequestProcessor._flatten_json_to_params`)

JSON values are embedded with mutually inductive object/array spines so that
the flattener is structurally recursive.  Numbers are embedded as integers
(the claims' inputs are integers; floats are outside the embedding).  Leaf
stringification follows Python `str`: `None` (handled before `str` is called)
becomes `""`, booleans become `True`/`False`.  Colliding flattened keys would
be overwritten by `dict.update` in the source; the embedding concatenates in
the same order, which agrees with the source whenever the produced keys are
distinct (true of all inputs considered here).
-/

mutual
/-- A JSON value. -/
inductive Json where
  | null : Json
  | bool (b : Bool) : Json
  | num (n : Int) : Json
  | str (s : String) : Json
  | arr (xs : JsonArr) : Json
  | obj (fs : JsonObj) : Json

/-- The element spine of a JSON array. -/
inductive JsonArr where
  | nil : JsonArr
  | cons (hd : Json) (tl : JsonArr) : JsonArr

/-- The member spine of a JSON object. -/
inductive JsonObj where
  | nil : JsonObj
  | cons (key : String) (val : Json) (tl : JsonObj) : JsonObj
end

/-- Python `str(value) if value is not None else ""` on a JSON leaf. -/
def jsonLeafStr : Json → String
  | .null => ""
  | .bool true => "True"
  | .bool false => "False"
  | .num n => toString n
  | .str s => s
  | .arr _ => ""
  | .obj _ => ""

/-- Embedding of `isinstance(value, (dict, list))`. -/
def jsonIsContainer : Json → Bool
  | .arr _ => true
  | .obj _ => true
  | _ => false

mutual
/-- Embedding of `_flatten_json_to_params(json_data, prefix)`. -/
def flattenJson : Json → String → Params
  | .obj fs, pre => flattenObj fs pre
  | .arr xs, pre => flattenArr xs 0 pre
  | j, pre => [(if pre == "" then "value" else pre, jsonLeafStr j)]

/-- The `dict` branch: dotted keys, recursing on containers. -/
def flattenObj : JsonObj → String → Params
  | .nil, _ => []
  | .cons k v tl, pre =>
      let newKey := if pre == "" then k else pre ++ "." ++ k
      (if jsonIsContainer v then flattenJson v newKey
       else [(newKey, jsonLeafStr v)]) ++ flattenObj tl pre

/-- The `list` branch: bracketed indices (`item_<i>` at top level). -/
def flattenArr : JsonArr → Nat → String → Params
  | .nil, _, _ => []
  | .cons hd tl, i, pre =>
      let newKey := if pre == "" then "item_" ++ toString i
                    else pre ++ "[" ++ toString i ++ "]"
      (if jsonIsContainer hd then flattenJson hd newKey
       else [(newKey, jsonLeafStr hd)]) ++ flattenArr tl (i + 1) pre
end

/-!
## Event Record Builder (`process_marketing_pixel_event`)

The builder's collaborators are parameters of the embedding:
* `md5hex` stands for `hashlib.md5(·.encode()).hexdigest()` (an external
  library digest; the claims only use the fingerprint as an opaque token);
* `extractId` stands for `handler.extract_identifiers` of the dispatched
  per-platform handler (the default, `BaseEventHandler.extract_identifiers`,
  is `baseExtractIdentifiers` below);
* `extraInfoFn` stands for `handler.extract_platform_info`;
* `formatId` stands for `_format_pixel_id`;
* `paramMap` is the platform's `param_map` from the registry.

Only the structured-sink emissions (`unified_logger.log_structured`) are
modeled; terminal/debug logging lines are side-effect-free for the sink.  Of
the emitted `data` payload the embedding keeps the fields the claims speak
about (platform, pixel id, event type, message, extra info, request hash); the
remaining fields (page/referrer URL, mapped data, method) and the metadata
object are built from the same inputs and are omitted.
-/

/-- Embedding of `_generate_request_hash`: digest of `f"{method}|{url}|{post_data}"`
truncated to 12 characters, parameterized by the md5 hex digest. -/
def generateRequestHash (md5hex : String → String)
    (url postData method : String) : String :=
  strTake (md5hex (method ++ "|" ++ url ++ "|" ++ postData)) 12

/-- Embedding of `BaseEventHandler.extract_identifiers`: pixel id from the config's
`pixel_id_key` (default `""`), event name from `event_name_key` (default
`"Unknown"`), event type `"Standard Event"`. -/
def baseExtractIdentifiers (pixelIdKey eventNameKey : String)
    (data : Params) : String × String × String :=
  ((data.lookup pixelIdKey).getD "",
   (data.lookup eventNameKey).getD "Unknown",
   "Standard Event")

/-- One record emitted through `unified_logger.log_structured`. -/
structure LoggedEvent where
  etype : String
  ename : String
  dataPlatform : String
  dataPixelId : String
  dataEventType : String
  dataMessage : String
  dataExtraInfo : List String
  dataRequestHash : String
deriving DecidableEq, Repr

/-- Embedding of `process_marketing_pixel_event`: extract identifiers; if the event name is
`"Unknown"` and the pixel id is empty, emit the error-classified
`custom_tracking`/`"not defined"` event and return; otherwise run the mapping,
attribute extraction and id formatting and emit the
`marketing_pixel_event`. -/
def processMarketingPixelEvent (md5hex : String → String)
    (extractId : Params → String × String × String)
    (extraInfoFn : Params → Params → String → List String)
    (formatId : String → String → String)
    (paramMap : List (String × String))
    (data : Params) (platform : String)
    (requestUrl postData method : String) : List LoggedEvent :=
  let (pixel_id, event_name, event_type) := extractId data
  if event_name == "Unknown" && pixel_id == "" then
    let request_hash := generateRequestHash md5hex requestUrl postData method
    [{ etype := "custom_tracking"
       ename := "not defined"
       dataPlatform := platform
       dataPixelId := ""
       dataEventType := ""
       dataMessage := "Missing " ++ platform ++ " event name and pixel ID"
       dataExtraInfo := []
       dataRequestHash := request_hash }]
  else
    let mapped_data : Params := paramMap.filterMap
      (fun kv => (data.lookup kv.1).map (fun v => (kv.2, v)))
    let extra_info := extraInfoFn data mapped_data event_name
    let _property_formatted := formatId pixel_id platform
    let request_hash := generateRequestHash md5hex requestUrl postData method
    [{ etype := "marketing_pixel_event"
       ename := event_name
       dataPlatform := platform
       dataPixelId := pixel_id
       dataEventType := event_type
       dataMessage := ""
       dataExtraInfo := extra_info
       dataRequestHash := request_hash }]

/-!
## Response Correlator (`UnifiedResponseProcessor`)
-/

/-- Embedding of `_is_static_asset`: the lowered path ends with a static-asset extension. -/
def isStaticAsset (path : String) : Bool :=
  [".js", ".html", ".css", ".js.map", ".css.map", ".png", ".jpg", ".jpeg",
   ".gif", ".svg", ".ico", ".woff", ".woff2", ".ttf", ".eot"].any
    (fun ext => strEndsWith (strLower path) ext)

/-- Embedding of `UnifiedResponseProcessor.SUCCESS_STATUS_CODES`. -/
def successStatusCodes : List Nat := [200, 204, 302]

/-- Embedding of `UnifiedResponseProcessor.JS_CONTENT_TYPES`. -/
def jsContentTypes : List String :=
  ["javascript", "application/js", "text/js", "application/javascript",
   "text/javascript", "application/x-javascript", "text/x-javascript"]

/-- Embedding of `UnifiedResponseProcessor.JS_PATH_PATTERNS`. -/
def jsPathPatterns : List String :=
  ["/gtm.js", "/gtag/js", "/analytics.js", "/ga.js", "/bat.js", "/uet.js"]

/-- Python `s.strip()` on ASCII whitespace. -/
def strStrip (s : String) : String :=
  ⟨(s.data.dropWhile Char.isWhitespace).reverse.dropWhile Char.isWhitespace |>.reverse⟩

/-- Embedding of `_is_javascript_content`: the lowered `Content-Type`'s main type is a
JavaScript type, or the path ends with `.js`, or the path contains a known
JavaScript endpoint pattern. -/
def isJavascriptContent (contentType path : String) : Bool :=
  let ct := strLower contentType
  let mainType := strStrip ⟨ct.data.takeWhile (fun c => c ≠ ';')⟩
  jsContentTypes.contains mainType || strEndsWith path ".js" ||
    jsPathPatterns.any (fun p => strContains path p)

/-- A status/warning record emitted by the Response Correlator: event type,
event name, and the `success` field of its data payload (`none` when the
payload carries no `success` key, as in the failure event). -/
structure RespEvent where
  etype : String
  ename : String
  dataSuccess : Option Bool
deriving DecidableEq, Repr

/-- Embedding of `_handle_tracking_response` (with `_log_response_status` inlined): error
statuses (`>= 400`) produce the `warning`/`tracking_request_failed` event;
success statuses (the fixed set) produce the `request_status_update` event,
named `status_received` — or `javascript_endpoint_detected` when the response
was judged JavaScript — with `success=true`; everything else emits nothing. -/
def handleTrackingResponse (contentType path : String) (status : Nat) :
    List RespEvent :=
  let is_js := isJavascriptContent contentType path
  if 400 ≤ status then
    [{ etype := "warning", ename := "tracking_request_failed", dataSuccess := none }]
  else if successStatusCodes.contains status then
    [{ etype := "request_status_update"
       ename := if is_js then "javascript_endpoint_detected" else "status_received"
       dataSuccess := some true }]
  else []

/-- The status-event part of `process_response`: static-asset paths are
excluded up front (only cookie handling runs for them, which emits no status
event); otherwise the tracking response is handled. -/
def processResponseStatusEvents (contentType path : String) (status : Nat) :
    List RespEvent :=
  if isStaticAsset path then []
  else handleTrackingResponse contentType path status

/-!
## Auxiliary definitions used by the theorems
-/

/-- An injective family of hostnames (`"h"`, `"ha"`, `"haa"`, …) used to drive
the detector with pairwise-distinct cache keys. -/
def hostN (i : Nat) : String :=
  ⟨'h' :: List.replicate i 'a'⟩

/-- A list of `n` `detect_platform` calls on pairwise-distinct hosts, a fixed
non-tracking path, and no flow. -/
def distinctHostCalls (n : Nat) : List Call :=
  (List.range n).map (fun i => (hostN i, "/x", (none : Option Params)))

/-- Cache invariant: every cached entry whose key decomposes as
`host ++ ":" ++ path` (for a colon-free host) with a privacy-sandbox path
holds the label `"Privacy Sandbox"`. -/
def privacyInv (cache : Cache) : Prop :=
  ∀ kv ∈ cache, ∀ h p : String, ':' ∉ h.data → kv.1 = mkKey h p →
    privacyPath p = true → kv.2 = "Privacy Sandbox"

/-- Modelled from the spec: the repository's `config.json` (the
`platformConfigs` table that becomes `PLATFORMS`) is not under `src/`.  Per
§2 and §4.2 of the spec, the Registry lists vendor platform configurations
(analytics suites, ad networks, consent vendors), while the label `"sGTM"` is
produced only by the Scorer's branch; so no Registry platform is named
`"sGTM"`. -/
def registryWellFormed (registry : Registry) : Prop :=
  ∀ pc ∈ registry, pc.1 ≠ "sGTM"

/-- Cache invariant: every cached `"sGTM"` entry was recorded for a host that
is not listed in the Registry. -/
def sgtmInv (registry : Registry) (cache : Cache) : Prop :=
  ∀ kv ∈ cache, kv.2 = "sGTM" → ∀ h p : String, ':' ∉ h.data →
    kv.1 = mkKey h p → (registryHosts registry).contains h = false

/-!
## Shared helper lemmas
-/

theorem strData_append (a b : String) : (a ++ b).data = a.data ++ b.data := by
  cases a
  cases b
  rfl

theorem string_eq_of_data (a b : String) (h : a.data = b.data) : a = b := by
  cases a
  cases b
  exact congrArg String.mk h

theorem mkKey_data (h p : String) :
    (mkKey h p).data = h.data ++ ':' :: p.data := by
  simp [mkKey, strData_append]

theorem colon_append_inj (l₁ : List Char) :
    ∀ l₂ r₁ r₂ : List Char, ':' ∉ l₁ → ':' ∉ l₂ →
      l₁ ++ ':' :: r₁ = l₂ ++ ':' :: r₂ → l₁ = l₂ ∧ r₁ = r₂ := by
  induction l₁ with
  | nil =>
    intro l₂ r₁ r₂ _ h₂ heq
    cases l₂ with
    | nil => simpa using heq
    | cons c t =>
      simp only [List.nil_append, List.cons_append, List.cons.injEq] at heq
      exact absurd (heq.1 ▸ List.mem_cons_self c t) h₂
  | cons c t ih =>
    intro l₂ r₁ r₂ h₁ h₂ heq
    cases l₂ with
    | nil =>
      simp only [List.cons_append, List.nil_append, List.cons.injEq] at heq
      exact absurd (heq.1 ▸ List.mem_cons_self c t) h₁
    | cons c' t' =>
      simp only [List.cons_append, List.cons.injEq] at heq
      have := ih t' r₁ r₂ (fun hm => h₁ (List.mem_cons_of_mem _ hm))
        (fun hm => h₂ (List.mem_cons_of_mem _ hm)) heq.2
      exact ⟨by simp [heq.1, this.1], this.2⟩

theorem mkKey_inj {h₁ h₂ p₁ p₂ : String} (hc₁ : ':' ∉ h₁.data)
    (hc₂ : ':' ∉ h₂.data) (heq : mkKey h₁ p₁ = mkKey h₂ p₂) :
    h₁ = h₂ ∧ p₁ = p₂ := by
  have hd : h₁.data ++ ':' :: p₁.data = h₂.data ++ ':' :: p₂.data := by
    have := congrArg String.data heq
    simpa [mkKey_data] using this
  have := colon_append_inj h₁.data h₂.data p₁.data p₂.data hc₁ hc₂ hd
  exact ⟨string_eq_of_data _ _ this.1, string_eq_of_data _ _ this.2⟩

theorem lookup_mem {α β} [BEq α] [LawfulBEq α] {l : List (α × β)} {k : α}
    {v : β} (h : List.lookup k l = some v) : (k, v) ∈ l := by
  induction l with
  | nil => simp [List.lookup] at h
  | cons a t ih =>
    obtain ⟨a₁, a₂⟩ := a
    rw [List.lookup] at h
    by_cases hk : (k == a₁) = true
    · rw [hk] at h
      obtain rfl : a₂ = v := by simpa using h
      obtain rfl : k = a₁ := eq_of_beq hk
      exact List.mem_cons_self _ _
    · rw [Bool.eq_false_iff.mpr hk] at h
      exact List.mem_cons_of_mem _ (ih h)

theorem lookup_append_of_none {α β} [BEq α] {l₁ l₂ : List (α × β)} {k : α}
    (h : List.lookup k l₁ = none) :
    List.lookup k (l₁ ++ l₂) = List.lookup k l₂ := by
  induction l₁ with
  | nil => rfl
  | cons a t ih =>
    rw [List.lookup] at h
    rw [List.cons_append, List.lookup]
    by_cases hk : (k == a.1) = true
    · rw [hk] at h
      cases h
    · rw [Bool.eq_false_iff.mpr hk] at h ⊢
      exact ih h

theorem lookup_singleton_ne {α β} [BEq α] [LawfulBEq α] {k k' : α} {v : β}
    (h : k ≠ k') : List.lookup k [(k', v)] = none := by
  rw [List.lookup]
  have : (k == k') = false := by simpa using h
  rw [this]
  rfl

/-!
## C3: container-id shape alone clears the relay bar
-/

/-- C3: for every parameter map whose only signal is a valid container-id
shape — the `gtm` parameter matches the configured container-id prefixes or
length rule, and no other positive-weighted signal of the advanced scorer
fires — the advanced Server-Side Tracking Scorer computes a score of at least
4 and classifies the request as a likely relay: the sGTM verdict (reached at
score ≥ 3), with `isServerSide` true. -/
theorem sgtm_container_shape_scores_relay (ind : SgtmIndicators)
    (host path : String) (p : Params)
    (hgtm : hasGtmContainer ind p = true)
    (htid : hasTrackingId ind p = false)
    (hga4 : countMatchingParams p ind.ga4Params < 3)
    (hconsent : hasAnyParams p ind.consentParams = false)
    (hserver : countMatchingParams p ind.serverGtmParams = 0)
    (hevent : hasAnyParams p ind.eventParams = false)
    (htrack : countMatchingParams p ind.trackingParams < 2)
    (hsession : hasAnyParams p ind.sessionParams = false)
    (hvalue : hasAnyParams p ind.valueParams = false)
    (hecomm : countMatchingParams p ind.ecommerceParams < 2)
    (hts : hasAnyParams p ind.timestampParams = false)
    (hencid : ((p.lookup "en").isSome && (p.lookup "cid").isSome) = false)
    (hgcs : (p.lookup "gcs").isSome = false) :
    4 ≤ (advancedServerSideDetection ind host path p).score ∧
    (advancedServerSideDetection ind host path p).platform = "sGTM" ∧
    (advancedServerSideDetection ind host path p).isServerSide = true := by
  have hscore :
      calculateSgtmScore ind p (hasGtmContainer ind p) (hasTrackingId ind p) = 4 := by
    unfold calculateSgtmScore
    rw [hgtm, htid, hconsent, hevent, hsession, hvalue, hts, hencid, hgcs]
    rw [if_neg (by omega : ¬ 3 ≤ countMatchingParams p ind.ga4Params)]
    rw [if_neg (by omega : ¬ 1 ≤ countMatchingParams p ind.serverGtmParams)]
    rw [if_neg (by omega : ¬ 2 ≤ countMatchingParams p ind.trackingParams)]
    rw [if_neg (by omega : ¬ 2 ≤ countMatchingParams p ind.ecommerceParams)]
    simp
  have hsc : (advancedServerSideDetection ind host path p).score =
      calculateSgtmScore ind p (hasGtmContainer ind p) (hasTrackingId ind p) := rfl
  have hpl : (advancedServerSideDetection ind host path p).platform =
      (if 3 ≤ calculateSgtmScore ind p (hasGtmContainer ind p) (hasTrackingId ind p)
        then "sGTM" else "Custom Tracking") := rfl
  have hss : (advancedServerSideDetection ind host path p).isServerSide =
      decide (1 ≤ calculateSgtmScore ind p (hasGtmContainer ind p)
        (hasTrackingId ind p)) := rfl
  rw [hsc, hpl, hss, hscore]
  exact ⟨by omega, by rw [if_pos (by omega)], by decide⟩

/-- Witness for C3 at a concrete indicator configuration in which the `gtm`
key is not itself an indicator keyword, and the single parameter
`gtm=GTM-ABCDEFG`. -/
theorem sgtm_container_shape_scores_relay_witness :
    4 ≤ (advancedServerSideDetection
      { ga4Params := [], consentParams := [], gtmIdPrefixes := ["GTM-"],
        trackingIdPrefixes := [], eventParams := [], trackingParams := [],
        sessionParams := [], valueParams := [], ecommerceParams := [],
        timestampParams := [], serverGtmParams := [] }
      "unknown-vendor.example.net" "/collect" [("gtm", "GTM-ABCDEFG")]).score ∧
    (advancedServerSideDetection
      { ga4Params := [], consentParams := [], gtmIdPrefixes := ["GTM-"],
        trackingIdPrefixes := [], eventParams := [], trackingParams := [],
        sessionParams := [], valueParams := [], ecommerceParams := [],
        timestampParams := [], serverGtmParams := [] }
      "unknown-vendor.example.net" "/collect" [("gtm", "GTM-ABCDEFG")]).platform = "sGTM" ∧
    (advancedServerSideDetection
      { ga4Params := [], consentParams := [], gtmIdPrefixes := ["GTM-"],
        trackingIdPrefixes := [], eventParams := [], trackingParams := [],
        sessionParams := [], valueParams := [], ecommerceParams := [],
        timestampParams := [], serverGtmParams := [] }
      "unknown-vendor.example.net" "/collect" [("gtm", "GTM-ABCDEFG")]).isServerSide = true :=
  sgtm_container_shape_scores_relay _ _ _ _ (by decide) (by decide) (by decide)
    (by decide) (by decide) (by decide) (by decide) (by decide) (by decide)
    (by decide) (by decide) (by decide) (by decide)

/-!
## C4: scoring monotonicity
-/

theorem lookup_isSome_mono {p q : Params}
    (hext : ∀ k v, p.lookup k = some v → q.lookup k = some v) (k : String)
    (h : (p.lookup k).isSome = true) : (q.lookup k).isSome = true := by
  cases hl : p.lookup k with
  | none => rw [hl] at h; cases h
  | some v => rw [hext k v hl]; rfl

theorem hasAnyParams_mono {p q : Params}
    (hext : ∀ k v, p.lookup k = some v → q.lookup k = some v)
    (l : List String) (h : hasAnyParams p l = true) : hasAnyParams q l = true := by
  rw [hasAnyParams, List.any_eq_true] at h ⊢
  obtain ⟨x, hx, hsome⟩ := h
  exact ⟨x, hx, lookup_isSome_mono hext x hsome⟩

theorem countMatchingParams_mono {p q : Params}
    (hext : ∀ k v, p.lookup k = some v → q.lookup k = some v)
    (l : List String) : countMatchingParams p l ≤ countMatchingParams q l := by
  induction l with
  | nil => exact Nat.le_refl 0
  | cons a t ih =>
    unfold countMatchingParams at ih ⊢
    rw [List.filter_cons, List.filter_cons]
    by_cases ha : (p.lookup a).isSome = true
    · rw [ha, lookup_isSome_mono hext a ha]
      simpa using ih
    · rw [Bool.eq_false_iff.mpr ha]
      by_cases hb : (q.lookup a).isSome = true
      · rw [hb]
        simp only [List.length_cons]
        exact Nat.le_succ_of_le ih
      · rw [Bool.eq_false_iff.mpr hb]
        exact ih

theorem hasGtmContainer_mono {ind : SgtmIndicators} {p q : Params}
    (hext : ∀ k v, p.lookup k = some v → q.lookup k = some v)
    (h : hasGtmContainer ind p = true) : hasGtmContainer ind q = true := by
  unfold hasGtmContainer at h ⊢
  cases hl : p.lookup "gtm" with
  | none => rw [hl] at h; simp at h
  | some g => rw [hl] at h; rw [hext "gtm" g hl]; exact h

theorem hasTrackingId_mono {ind : SgtmIndicators} {p q : Params}
    (hext : ∀ k v, p.lookup k = some v → q.lookup k = some v)
    (h : hasTrackingId ind p = true) : hasTrackingId ind q = true := by
  unfold hasTrackingId at h ⊢
  cases hl : p.lookup "tid" with
  | none => rw [hl] at h; simp at h
  | some g => rw [hl] at h; rw [hext "tid" g hl]; exact h

theorem guard_weight_mono {b b' : Bool} (w : Nat) (h : b = true → b' = true) :
    (if b then w else 0) ≤ (if b' then w else 0) := by
  cases b with
  | false => cases b' <;> simp
  | true => rw [h rfl]

theorem guard_weight_mono_prop {P Q : Prop} [Decidable P] [Decidable Q]
    (w : Nat) (h : P → Q) : (if P then w else 0) ≤ (if Q then w else 0) := by
  by_cases hp : P
  · rw [if_pos hp, if_pos (h hp)]
  · rw [if_neg hp]
    exact Nat.zero_le _

/-- C4: the advanced score is monotone in the parameter map — extending the
map with new entries (leaving every existing binding in place) never
decreases the integer score computed by the advanced Server-Side Tracking
Scorer; in particular adding any entry that triggers a positive-weighted
signal never decreases the score. -/
theorem sgtm_score_monotone (ind : SgtmIndicators) (host path : String)
    (p q : Params)
    (hext : ∀ k v, p.lookup k = some v → q.lookup k = some v) :
    (advancedServerSideDetection ind host path p).score ≤
      (advancedServerSideDetection ind host path q).score := by
  have hp : (advancedServerSideDetection ind host path p).score =
      calculateSgtmScore ind p (hasGtmContainer ind p) (hasTrackingId ind p) := rfl
  have hq : (advancedServerSideDetection ind host path q).score =
      calculateSgtmScore ind q (hasGtmContainer ind q) (hasTrackingId ind q) := rfl
  rw [hp, hq]
  unfold calculateSgtmScore
  have hand : ((p.lookup "en").isSome && (p.lookup "cid").isSome) = true →
      ((q.lookup "en").isSome && (q.lookup "cid").isSome) = true := by
    intro h
    rw [Bool.and_eq_true] at h ⊢
    exact ⟨lookup_isSome_mono hext _ h.1, lookup_isSome_mono hext _ h.2⟩
  refine Nat.add_le_add (Nat.add_le_add (Nat.add_le_add (Nat.add_le_add
    (Nat.add_le_add (Nat.add_le_add (Nat.add_le_add (Nat.add_le_add
    (Nat.add_le_add (Nat.add_le_add (Nat.add_le_add (Nat.add_le_add
    (guard_weight_mono 4 (hasGtmContainer_mono hext))
    (guard_weight_mono 2 (hasTrackingId_mono hext)))
    (guard_weight_mono_prop 2 (fun h => Nat.le_trans h (countMatchingParams_mono hext _))))
    (guard_weight_mono 1 (hasAnyParams_mono hext _)))
    (guard_weight_mono_prop 2 (fun h => Nat.le_trans h (countMatchingParams_mono hext _))))
    (guard_weight_mono 3 (hasAnyParams_mono hext _)))
    (guard_weight_mono_prop 2 (fun h => Nat.le_trans h (countMatchingParams_mono hext _))))
    (guard_weight_mono 1 (hasAnyParams_mono hext _)))
    (guard_weight_mono 1 (hasAnyParams_mono hext _)))
    (guard_weight_mono_prop 2 (fun h => Nat.le_trans h (countMatchingParams_mono hext _))))
    (guard_weight_mono 1 (hasAnyParams_mono hext _)))
    (guard_weight_mono 1 hand))
    (guard_weight_mono 1 (lookup_isSome_mono hext "gcs"))

/-- Witness for C4: the empty map against the map extended with the
positive-weighted event-name signal `en`. -/
theorem sgtm_score_monotone_witness :
    (advancedServerSideDetection defaultSgtmIndicators "h" "/p" []).score ≤
      (advancedServerSideDetection defaultSgtmIndicators "h" "/p"
        [("en", "purchase")]).score :=
  sgtm_score_monotone defaultSgtmIndicators "h" "/p" _ _
    (by intro k v h; simp [List.lookup] at h)

/-!
## C6: missing-identifier path of the Event Record Builder
-/

/-- C6: for every platform and every parameter map from which the dispatched
handler extracts event name `"Unknown"` and an empty primary identifier, the
Event Record Builder emits exactly one `custom_tracking`/`"not defined"` event
whose message names the platform and which carries the request fingerprint,
and stops: the attribute-extraction function is never consulted (the result is
the same for every `extraInfoFn` and `formatId`) and no
`marketing_pixel_event` is emitted. -/
theorem builder_missing_identifier_path (md5hex : String → String)
    (extractId : Params → String × String × String)
    (extraInfoFn : Params → Params → String → List String)
    (formatId : String → String → String)
    (paramMap : List (String × String)) (data : Params)
    (platform requestUrl postData method : String)
    (hname : (extractId data).2.1 = "Unknown")
    (hid : (extractId data).1 = "") :
    processMarketingPixelEvent md5hex extractId extraInfoFn formatId paramMap
      data platform requestUrl postData method =
    [{ etype := "custom_tracking"
       ename := "not defined"
       dataPlatform := platform
       dataPixelId := ""
       dataEventType := ""
       dataMessage := "Missing " ++ platform ++ " event name and pixel ID"
       dataExtraInfo := []
       dataRequestHash := generateRequestHash md5hex requestUrl postData method }] := by
  unfold processMarketingPixelEvent
  rcases hx : extractId data with ⟨pid, en, et⟩
  rw [hx] at hname hid
  simp only at hname hid
  subst hname
  subst hid
  rfl

/-- Witness for C6: the default handler (`BaseEventHandler` with the fallback
configuration of `get_event_handler`) on the empty parameter map. -/
theorem builder_missing_identifier_path_witness :
    processMarketingPixelEvent (fun _ => "0123456789abcdef0123456789abcdef")
      (baseExtractIdentifiers "pixel_id" "event_name")
      (fun _ _ _ => ["attr"]) (fun i _ => i) [] [] "Acme"
      "https://shop.example/x" "" "GET" =
    [{ etype := "custom_tracking"
       ename := "not defined"
       dataPlatform := "Acme"
       dataPixelId := ""
       dataEventType := ""
       dataMessage := "Missing Acme event name and pixel ID"
       dataExtraInfo := []
       dataRequestHash := "0123456789ab" }] :=
  (builder_missing_identifier_path (fun _ => "0123456789abcdef0123456789abcdef")
    (baseExtractIdentifiers "pixel_id" "event_name") (fun _ _ _ => ["attr"])
    (fun i _ => i) [] [] "Acme" "https://shop.example/x" "" "GET"
    (by decide) (by decide)).trans (by decide)

/-!
## C7: response status classification
-/

/-- C7 counterexample: a tracking response whose content type is JavaScript
and whose status is the success code 200 produces a `request_status_update`
event named `javascript_endpoint_detected`, not `status_received`; so the
claim that every success-status response yields a
`request_status_update`/`status_received` event is false as stated. -/
theorem response_status_received_counterexample :
    processResponseStatusEvents "text/javascript" "/collect" 200 =
      [{ etype := "request_status_update"
         ename := "javascript_endpoint_detected"
         dataSuccess := some true }] ∧
    processResponseStatusEvents "text/javascript" "/collect" 200 ≠
      [{ etype := "request_status_update"
         ename := "status_received"
         dataSuccess := some true }] :=
  ⟨by decide, by decide⟩

/-- C7 amended: for every response to a processed tracking request (its path
is not a static asset), a status in the fixed success set {200, 204, 302}
produces a single `request_status_update` event with `success=true`, named
`status_received` for non-JavaScript responses and
`javascript_endpoint_detected` for JavaScript ones; a status ≥ 400 produces a
single `warning`/`tracking_request_failed` event; every other status produces
no status event. -/
theorem response_status_classification (contentType path : String) (status : Nat)
    (hstatic : isStaticAsset path = false) :
    (400 ≤ status → processResponseStatusEvents contentType path status =
      [{ etype := "warning", ename := "tracking_request_failed",
         dataSuccess := none }]) ∧
    (successStatusCodes.contains status = true →
      processResponseStatusEvents contentType path status =
      [{ etype := "request_status_update"
         ename := if isJavascriptContent contentType path
           then "javascript_endpoint_detected" else "status_received"
         dataSuccess := some true }]) ∧
    (status < 400 → successStatusCodes.contains status = false →
      processResponseStatusEvents contentType path status = []) := by
  unfold processResponseStatusEvents handleTrackingResponse
  rw [hstatic]
  simp only [Bool.false_eq_true, if_false]
  refine ⟨fun h4 => by rw [if_pos h4], fun hmem => ?_, fun h4 hmem => ?_⟩
  · have hlt : ¬ 400 ≤ status := by
      have : status = 200 ∨ status = 204 ∨ status = 302 := by
        simpa [successStatusCodes, List.contains, List.elem_eq_mem,
          List.mem_cons] using hmem
      omega
    rw [if_neg hlt, if_pos hmem]
  · rw [if_neg (by omega : ¬ 400 ≤ status)]
    rw [if_neg (by rw [hmem]; exact Bool.false_ne_true :
      ¬ successStatusCodes.contains status = true)]

/-- Witness for C7 amended: a non-JavaScript 204 response yields the
`status_received` success event, and a 503 yields the failure warning. -/
theorem response_status_classification_witness :
    processResponseStatusEvents "text/plain" "/g/collect" 204 =
      [{ etype := "request_status_update", ename := "status_received",
         dataSuccess := some true }] ∧
    processResponseStatusEvents "text/plain" "/g/collect" 503 =
      [{ etype := "warning", ename := "tracking_request_failed",
         dataSuccess := none }] :=
  ⟨((response_status_classification "text/plain" "/g/collect" 204
      (by decide)).2.1 (by decide)).trans (by decide),
   (response_status_classification "text/plain" "/g/collect" 503
      (by decide)).1 (by decide)⟩

/-!
## C8: JSON flattening
-/

/-- C8: the recursive JSON flattener maps `{"a": {"b": [1, 2]}}` to exactly
the parameter pairs `a.b[0] -> "1"` and `a.b[1] -> "2"` (dotted keys for
object nesting, bracketed indices for arrays, leaves stringified), and every
null leaf maps to the empty string.  The flattener stringifies leaves at
exactly three places — a top-level primitive, an object member, and an array
element — and one clause per place shows the null leaf becoming `""` there:
for every prefix, every surrounding object (any member key, any remaining
members) and every surrounding array (any element index, any remaining
elements). -/
theorem flatten_json_nested_and_null :
    flattenJson
      (.obj (.cons "a" (.obj (.cons "b"
        (.arr (.cons (.num 1) (.cons (.num 2) .nil))) .nil)) .nil)) "" =
      [("a.b[0]", "1"), ("a.b[1]", "2")] ∧
    (∀ pre : String, flattenJson .null pre =
      [(if pre == "" then "value" else pre, "")]) ∧
    (∀ (pre k : String) (tl : JsonObj), flattenObj (.cons k .null tl) pre =
      (if pre == "" then k else pre ++ "." ++ k, "") :: flattenObj tl pre) ∧
    (∀ (pre : String) (i : Nat) (tl : JsonArr), flattenArr (.cons .null tl) i pre =
      (if pre == "" then "item_" ++ toString i else pre ++ "[" ++ toString i ++ "]", "")
        :: flattenArr tl (i + 1) pre) := by
  refine ⟨by decide, fun pre => rfl, fun pre k tl => ?_, fun pre i tl => ?_⟩
  · rw [flattenObj]
    simp [jsonIsContainer, jsonLeafStr]
  · rw [flattenArr]
    simp [jsonIsContainer, jsonLeafStr]

/-!
## C9: e-commerce product sub-extractor
-/

theorem isProductKey_digits (d : String) (hne : d.data ≠ [])
    (hdig : d.data.all Char.isDigit = true) :
    isProductKey ("pr" ++ d) = true := by
  have hdata : ("pr" ++ d).data = 'p' :: 'r' :: d.data := strData_append "pr" d
  unfold isProductKey strStartsWith
  rw [hdata]
  simp only [List.drop_succ_cons, List.drop_zero]
  rw [hdig]
  have hp : ("pr".data : List Char) <+: 'p' :: 'r' :: d.data := ⟨d.data, rfl⟩
  simp [hp, hne]

theorem parseProductData_singleton_of_key {k : String} (v : String)
    (hk : isProductKey k = true) :
    parseProductData [(k, v)] =
      (if parseProductValue v ≠ [] then [parseProductValue v] else []) := by
  unfold parseProductData
  rw [List.filter_cons]
  rw [hk]
  simp only [List.filterMap]
  by_cases hv : parseProductValue v = [] <;> simp [hv]

/-- C9: the product sub-extractor reads exactly the parameters named
`pr<digits>` — a lone product parameter is parsed identically whatever its
digit suffix, a parameter whose name fails the `pr<digits>` shape is ignored —
and parsing URL-unquotes the value, splits it on `~` and pairs each token's
two-character prefix with the remaining text: the value
`nmShoe~id123~pr49.99` yields the product record
`{"name": "Shoe", "id": "123", "price": "49.99"}`. -/
theorem product_extractor_spec :
    (∀ d v : String, d.data ≠ [] → d.data.all Char.isDigit = true →
      parseProductData [("pr" ++ d, v)] = parseProductData [("pr1", v)]) ∧
    parseProductData [("pr1", "nmShoe~id123~pr49.99")] =
      [[("name", "Shoe"), ("id", "123"), ("price", "49.99")]] ∧
    (∀ k v : String, isProductKey k = false → parseProductData [(k, v)] = []) := by
  refine ⟨fun d v hne hdig => ?_, by decide, fun k v hk => ?_⟩
  · rw [parseProductData_singleton_of_key v (isProductKey_digits d hne hdig),
      parseProductData_singleton_of_key v (by decide : isProductKey "pr1" = true)]
  · unfold parseProductData
    rw [List.filter_cons, hk]
    rfl

/-- Witness for C9: digit-suffix invariance at `pr42` and rejection of a
non-product key. -/
theorem product_extractor_spec_witness :
    parseProductData [("pr" ++ "42", "nmShoe~id123~pr49.99")] =
      parseProductData [("pr1", "nmShoe~id123~pr49.99")] ∧
    parseProductData [("item", "nmShoe~id123~pr49.99")] = [] :=
  ⟨product_extractor_spec.1 "42" "nmShoe~id123~pr49.99" (by decide) (by decide),
   product_extractor_spec.2.2 "item" "nmShoe~id123~pr49.99" (by decide)⟩

/-!
## C1: the cache short-circuits the parameter-scored branch
-/

/-- C1: evaluation of the divergence.  At the unregistered endpoint
`unknown-vendor.example.net` + `/collect`, a first request whose parameters
score as a likely relay is labeled `"sGTM"` and cached under `host:path`; a
second request at the same endpoint whose parameters are empty — and which a
fresh detector labels `"Custom Tracking"` — is nevertheless answered `"sGTM"`
from the cache.  So a cached verdict of the parameter-dependent scored branch
is returned for a later request whose parameters score differently,
contradicting the claimed invariant. -/
theorem cache_returns_stale_scored_verdict :
    (detectPlatform defaultSgtmIndicators [] [] "unknown-vendor.example.net"
      "/collect"
      (some [("gtm", "GTM-ABCDEFG"), ("en", "purchase"), ("value", "19.99")])).1
      = "sGTM" ∧
    (detectPlatform defaultSgtmIndicators []
      (detectPlatform defaultSgtmIndicators [] [] "unknown-vendor.example.net"
        "/collect"
        (some [("gtm", "GTM-ABCDEFG"), ("en", "purchase"), ("value", "19.99")])).2
      "unknown-vendor.example.net" "/collect" (some [])).1 = "sGTM" ∧
    (detectPlatform defaultSgtmIndicators [] [] "unknown-vendor.example.net"
      "/collect" (some [])).1 = "Custom Tracking" :=
  ⟨by decide, by decide, by decide⟩

/-!
## C5: cache growth under detect_platform calls
-/

theorem hostN_key_data (i : Nat) :
    (mkKey (hostN i) "/x").data = 'h' :: List.replicate i 'a' ++ [':', '/', 'x'] := by
  rw [mkKey_data]
  rfl

theorem hostN_key_ne {i j : Nat} (h : i ≠ j) :
    mkKey (hostN i) "/x" ≠ mkKey (hostN j) "/x" := by
  intro heq
  have := congrArg (fun s => s.data.length) heq
  simp only [hostN_key_data, List.length_cons, List.length_append,
    List.length_replicate] at this
  omega

theorem detect_on_distinct_host (i : Nat) (cache : Cache)
    (h : List.lookup (mkKey (hostN i) "/x") cache = none) :
    detectPlatform defaultSgtmIndicators [] cache (hostN i) "/x" none =
      ("Custom Tracking",
        cache ++ [(mkKey (hostN i) "/x", "Custom Tracking")]) := by
  unfold detectPlatform
  rw [h]
  have h1 : privacyPath "/x" = false := by decide
  have h2 : ("/x" == "/ccm/collect") = false := by decide
  have h3 : isRegionalGA4 (hostN i) "/x" = false := by
    unfold isRegionalGA4
    rw [(by decide : ga4Paths.any (fun p => strStartsWith "/x" p) = false)]
    rfl
  have h4 : detectStandardPlatform [] (hostN i) "/x" = "Custom Tracking" := by
    unfold detectStandardPlatform
    rw [(by decide : strContains "/x" "/trc/" = false), Bool.and_false]
    rw [(by decide : ("/x" == "/gtm.js") = false),
      (by decide : strStartsWith "/x" "/gtm.js?" = false)]
    rfl
  rw [h1, h2, h3, h4]
  simp [cacheInsert]

theorem runCalls_distinct_hosts (l : List Nat) :
    ∀ cache : Cache,
      (∀ i ∈ l, List.lookup (mkKey (hostN i) "/x") cache = none) → l.Nodup →
      (runCalls defaultSgtmIndicators [] cache
        (l.map (fun i => (hostN i, "/x", (none : Option Params))))).length =
        cache.length + l.length := by
  induction l with
  | nil => intro cache _ _; simp [runCalls]
  | cons i t ih =>
    intro cache hnone hnd
    rw [List.map_cons, runCalls,
      detect_on_distinct_host i cache (hnone i (List.mem_cons_self i t))]
    have hnd' := List.nodup_cons.mp hnd
    have hnone' : ∀ j ∈ t,
        List.lookup (mkKey (hostN j) "/x")
          (cache ++ [(mkKey (hostN i) "/x", "Custom Tracking")]) = none := by
      intro j hj
      rw [lookup_append_of_none (hnone j (List.mem_cons_of_mem i hj))]
      exact lookup_singleton_ne (hostN_key_ne (fun hji => hnd'.1 (hji ▸ hj)))
    rw [ih (cache ++ [(mkKey (hostN i) "/x", "Custom Tracking")]) hnone' hnd'.2]
    simp
    omega

/-- C5: evaluation of the divergence.  `detect_platform` never invokes any
eviction (no caller of `clear_cache` exists in the repository), so the cache
grows without bound: a sequence of `n` calls on pairwise-distinct hosts leaves
exactly `n` entries in the cache for every `n`; in particular, after 201 calls
the cache holds more than 200 entries and nothing has been discarded. -/
theorem detector_cache_growth_unbounded :
    (∀ n : Nat,
      (runCalls defaultSgtmIndicators [] [] (distinctHostCalls n)).length = n) ∧
    200 < (runCalls defaultSgtmIndicators [] []
      (distinctHostCalls 201)).length := by
  have hall : ∀ n : Nat,
      (runCalls defaultSgtmIndicators [] [] (distinctHostCalls n)).length = n := by
    intro n
    have := runCalls_distinct_hosts (List.range n) []
      (by intro i _; rfl) (List.nodup_range n)
    simpa [distinctHostCalls] using this
  exact ⟨hall, by rw [hall 201]; omega⟩

/-!
## C2: privacy-sandbox paths always win (branch 1 before branches 5/6)
-/

theorem privacyInv_nil : privacyInv [] := by
  intro kv hkv
  exact absurd hkv (List.not_mem_nil kv)

theorem privacyInv_insert {cache : Cache} {host path v : String}
    (hh : ':' ∉ host.data)
    (hvok : privacyPath path = true → v = "Privacy Sandbox")
    (hinv : privacyInv cache) :
    privacyInv (cacheInsert cache (mkKey host path) v) := by
  intro kv hkv h p hph hkey hpriv
  rcases List.mem_append.mp hkv with hm | hm
  · exact hinv kv hm h p hph hkey hpriv
  · have hkv2 : kv = (mkKey host path, v) := by simpa using hm
    subst hkv2
    obtain ⟨_, hpp⟩ := mkKey_inj hh hph hkey
    exact hvok (by rw [hpp]; exact hpriv)

theorem detect_preserves_privacyInv (ind : SgtmIndicators) (registry : Registry)
    {cache : Cache} (host path : String) (flowParams : Option Params)
    (hh : ':' ∉ host.data) (hinv : privacyInv cache) :
    privacyInv (detectPlatform ind registry cache host path flowParams).2 := by
  unfold detectPlatform
  cases hc : List.lookup (mkKey host path) cache with
  | some v => exact hinv
  | none =>
    by_cases h1 : privacyPath path = true
    · rw [if_pos h1]
      exact privacyInv_insert hh (fun _ => rfl) hinv
    · rw [if_neg h1]
      by_cases h2 : (path == "/ccm/collect" && ccmHosts.contains host) = true
      · rw [if_pos h2]
        exact privacyInv_insert hh (fun hp => absurd hp h1) hinv
      · rw [if_neg h2]
        by_cases h3 : isRegionalGA4 host path = true
        · rw [if_pos h3]
          exact privacyInv_insert hh (fun hp => absurd hp h1) hinv
        · rw [if_neg h3]
          by_cases h4 : ((match flowParams with
              | some ps => checkServerSideTracking ind registry host path ps
              | none => none) == some "sGTM") = true
          · rw [if_pos h4]
            exact privacyInv_insert hh (fun hp => absurd hp h1) hinv
          · rw [if_neg h4]
            exact privacyInv_insert hh (fun hp => absurd hp h1) hinv

theorem runCalls_preserves_privacyInv (ind : SgtmIndicators) (registry : Registry)
    (calls : List Call) :
    ∀ cache : Cache, (∀ c ∈ calls, ':' ∉ c.1.data) → privacyInv cache →
      privacyInv (runCalls ind registry cache calls) := by
  induction calls with
  | nil => intro cache _ hinv; exact hinv
  | cons c t ih =>
    intro cache hc hinv
    obtain ⟨h, p, ps⟩ := c
    rw [runCalls]
    exact ih _ (fun c hm => hc c (List.mem_cons_of_mem _ hm))
      (detect_preserves_privacyInv ind registry h p ps
        (hc _ (List.mem_cons_self _ _)) hinv)

theorem detect_privacy_result {ind : SgtmIndicators} {registry : Registry}
    {cache : Cache} {host path : String} {flowParams : Option Params}
    (hinv : privacyInv cache) (hh : ':' ∉ host.data)
    (hpriv : privacyPath path = true) :
    (detectPlatform ind registry cache host path flowParams).1 =
      "Privacy Sandbox" := by
  unfold detectPlatform
  cases hc : List.lookup (mkKey host path) cache with
  | some v => exact hinv (mkKey host path, v) (lookup_mem hc) host path hh rfl hpriv
  | none => rw [if_pos hpriv]

/-- C2: starting from an empty cache and any sequence of `detect_platform`
calls (with well-formed, colon-free hostnames), a request whose path contains
a privacy-sandbox segment is labeled `"Privacy Sandbox"`, whatever the
Registry holds for its host — the path-only signature branch strictly
precedes the registry host+path and host-only branches, and no cache entry
can override it. -/
theorem privacy_sandbox_priority (ind : SgtmIndicators) (registry : Registry)
    (calls : List Call) (host path : String) (flowParams : Option Params)
    (hcalls : ∀ c ∈ calls, ':' ∉ c.1.data) (hh : ':' ∉ host.data)
    (hpriv : privacyPath path = true) :
    (detectPlatform ind registry (runCalls ind registry [] calls)
      host path flowParams).1 = "Privacy Sandbox" :=
  detect_privacy_result
    (runCalls_preserves_privacyInv ind registry calls [] hcalls privacyInv_nil)
    hh hpriv

/-- Witness for C2: a host listed in a registry config (with a matching path
rule) still gets the `"Privacy Sandbox"` label for a privacy-sandbox path. -/
theorem privacy_sandbox_priority_witness :
    (registryHosts
        [("Facebook", { hosts := ["www.facebook.com"], paths := ["/tr"] })]).contains
      "www.facebook.com" = true ∧
    (detectPlatform defaultSgtmIndicators
      [("Facebook", { hosts := ["www.facebook.com"], paths := ["/tr"] })]
      (runCalls defaultSgtmIndicators
        [("Facebook", { hosts := ["www.facebook.com"], paths := ["/tr"] })] [] [])
      "www.facebook.com" "/privacy-sandbox/report" none).1 = "Privacy Sandbox" :=
  ⟨by decide,
   privacy_sandbox_priority defaultSgtmIndicators
    [("Facebook", { hosts := ["www.facebook.com"], paths := ["/tr"] })] []
    "www.facebook.com" "/privacy-sandbox/report" none
    (fun c hc => absurd hc (List.not_mem_nil c)) (by decide) (by decide)⟩

/-!
## C10: registry-listed hosts never receive the scored sGTM label
-/

theorem sgtmInv_nil (registry : Registry) : sgtmInv registry [] := by
  intro kv hkv
  exact absurd hkv (List.not_mem_nil kv)

theorem detectStandardPlatform_ne_sgtm {registry : Registry}
    (hwf : registryWellFormed registry) (host path : String) :
    detectStandardPlatform registry host path ≠ "sGTM" := by
  unfold detectStandardPlatform
  by_cases h1 : (host == "trc.taboola.com" && strContains path "/trc/") = true
  · rw [if_pos h1]
    decide
  · rw [if_neg h1]
    by_cases h2 : (path == "/gtm.js" || strStartsWith path "/gtm.js?") = true
    · rw [if_pos h2]
      decide
    · rw [if_neg h2]
      cases hf : List.find? (fun pc =>
          pc.2.hosts.contains host &&
            pc.2.paths.any (fun p => strStartsWith path p)) registry with
      | some pc => exact hwf pc (List.mem_of_find?_eq_some hf)
      | none =>
        cases hf2 : List.find? (fun pc => pc.2.hosts.contains host) registry with
        | some pc => exact hwf pc (List.mem_of_find?_eq_some hf2)
        | none => decide

theorem checkSgtm_host_not_registered {ind : SgtmIndicators}
    {registry : Registry} {host path : String} {ps : Params}
    (h : checkServerSideTracking ind registry host path ps = some "sGTM") :
    (registryHosts registry).contains host = false := by
  unfold checkServerSideTracking at h
  by_cases h1 : (host == "trc.taboola.com" && strContains path "/trc/") = true
  · rw [if_pos h1] at h
    cases h
  · rw [if_neg h1] at h
    by_cases h2 : (registryHosts registry).contains host = true
    · rw [if_pos h2] at h
      cases h
    · exact Bool.eq_false_iff.mpr h2

theorem sgtmInv_insert {registry : Registry} {cache : Cache}
    {host path v : String} (hh : ':' ∉ host.data)
    (hvok : v = "sGTM" → (registryHosts registry).contains host = false)
    (hinv : sgtmInv registry cache) :
    sgtmInv registry (cacheInsert cache (mkKey host path) v) := by
  intro kv hkv hval h p hph hkey
  rcases List.mem_append.mp hkv with hm | hm
  · exact hinv kv hm hval h p hph hkey
  · have hkv2 : kv = (mkKey host path, v) := by simpa using hm
    subst hkv2
    obtain ⟨hhh, _⟩ := mkKey_inj hh hph hkey
    rw [← hhh]
    exact hvok hval

theorem detect_preserves_sgtmInv (ind : SgtmIndicators) {registry : Registry}
    {cache : Cache} (host path : String) (flowParams : Option Params)
    (hwf : registryWellFormed registry) (hh : ':' ∉ host.data)
    (hinv : sgtmInv registry cache) :
    sgtmInv registry (detectPlatform ind registry cache host path flowParams).2 := by
  unfold detectPlatform
  cases hc : List.lookup (mkKey host path) cache with
  | some v => exact hinv
  | none =>
    by_cases h1 : privacyPath path = true
    · rw [if_pos h1]
      exact sgtmInv_insert hh (fun hv => absurd hv (by decide)) hinv
    · rw [if_neg h1]
      by_cases h2 : (path == "/ccm/collect" && ccmHosts.contains host) = true
      · rw [if_pos h2]
        exact sgtmInv_insert hh (fun hv => absurd hv (by decide)) hinv
      · rw [if_neg h2]
        by_cases h3 : isRegionalGA4 host path = true
        · rw [if_pos h3]
          exact sgtmInv_insert hh (fun hv => absurd hv (by decide)) hinv
        · rw [if_neg h3]
          by_cases h4 : ((match flowParams with
              | some ps => checkServerSideTracking ind registry host path ps
              | none => none) == some "sGTM") = true
          · rw [if_pos h4]
            refine sgtmInv_insert hh (fun _ => ?_) hinv
            have hsome := eq_of_beq h4
            cases hps : flowParams with
            | none => rw [hps] at hsome; cases hsome
            | some l =>
              rw [hps] at hsome
              exact checkSgtm_host_not_registered hsome
          · rw [if_neg h4]
            exact sgtmInv_insert hh
              (fun hv => absurd hv (detectStandardPlatform_ne_sgtm hwf host path))
              hinv

theorem runCalls_preserves_sgtmInv (ind : SgtmIndicators) {registry : Registry}
    (calls : List Call) (hwf : registryWellFormed registry) :
    ∀ cache : Cache, (∀ c ∈ calls, ':' ∉ c.1.data) → sgtmInv registry cache →
      sgtmInv registry (runCalls ind registry cache calls) := by
  induction calls with
  | nil => intro cache _ hinv; exact hinv
  | cons c t ih =>
    intro cache hc hinv
    obtain ⟨h, p, ps⟩ := c
    rw [runCalls]
    exact ih _ (fun c hm => hc c (List.mem_cons_of_mem _ hm))
      (detect_preserves_sgtmInv ind h p ps hwf
        (hc _ (List.mem_cons_self _ _)) hinv)

theorem detect_registry_host_ne_sgtm {ind : SgtmIndicators}
    {registry : Registry} {cache : Cache} {host path : String}
    {flowParams : Option Params} (hwf : registryWellFormed registry)
    (hinv : sgtmInv registry cache) (hh : ':' ∉ host.data)
    (hreg : (registryHosts registry).contains host = true) :
    (detectPlatform ind registry cache host path flowParams).1 ≠ "sGTM" := by
  unfold detectPlatform
  cases hc : List.lookup (mkKey host path) cache with
  | some v =>
    intro hv
    have := hinv (mkKey host path, v) (lookup_mem hc) hv host path hh rfl
    rw [hreg] at this
    cases this
  | none =>
    by_cases h1 : privacyPath path = true
    · rw [if_pos h1]
      show ("Privacy Sandbox" : String) ≠ "sGTM"
      decide
    · rw [if_neg h1]
      by_cases h2 : (path == "/ccm/collect" && ccmHosts.contains host) = true
      · rw [if_pos h2]
        show ("Google Consent Collection" : String) ≠ "sGTM"
        decide
      · rw [if_neg h2]
        by_cases h3 : isRegionalGA4 host path = true
        · rw [if_pos h3]
          show ("GA4" : String) ≠ "sGTM"
          decide
        · rw [if_neg h3]
          have h4 : ¬ ((match flowParams with
              | some ps => checkServerSideTracking ind registry host path ps
              | none => none) == some "sGTM") = true := by
            intro h4
            have hsome := eq_of_beq h4
            cases hps : flowParams with
            | none => rw [hps] at hsome; cases hsome
            | some l =>
              rw [hps] at hsome
              rw [checkSgtm_host_not_registered hsome] at hreg
              cases hreg
          rw [if_neg h4]
          exact detectStandardPlatform_ne_sgtm hwf host path

/-- C10: for every request whose host appears in some configured
`PlatformConfig`'s host set, `detect_platform` never returns `"sGTM"` — the
parameter-scored server-side branch is skipped for registry-listed hosts, so
such a host can only receive a signature, registry, or fallback label — under
any sequence of prior calls from an empty cache (well-formed, colon-free
hostnames) and for a registry that, per the spec, names no platform
`"sGTM"`. -/
theorem registry_host_never_sgtm (ind : SgtmIndicators) (registry : Registry)
    (calls : List Call) (host path : String) (flowParams : Option Params)
    (hwf : registryWellFormed registry)
    (hcalls : ∀ c ∈ calls, ':' ∉ c.1.data) (hh : ':' ∉ host.data)
    (hreg : (registryHosts registry).contains host = true) :
    (detectPlatform ind registry (runCalls ind registry [] calls)
      host path flowParams).1 ≠ "sGTM" :=
  detect_registry_host_ne_sgtm hwf
    (runCalls_preserves_sgtmInv ind calls hwf [] hcalls (sgtmInv_nil registry))
    hh hreg

/-- Witness for C10: a registry-listed host carrying parameters that would
score as a relay is still not labeled `"sGTM"`. -/
theorem registry_host_never_sgtm_witness :
    (detectPlatform defaultSgtmIndicators
      [("Facebook", { hosts := ["www.facebook.com"], paths := ["/tr"] })]
      (runCalls defaultSgtmIndicators
        [("Facebook", { hosts := ["www.facebook.com"], paths := ["/tr"] })] [] [])
      "www.facebook.com" "/tr"
      (some [("gtm", "GTM-ABCDEFG"), ("en", "purchase")])).1 ≠ "sGTM" :=
  registry_host_never_sgtm defaultSgtmIndicators
    [("Facebook", { hosts := ["www.facebook.com"], paths := ["/tr"] })] []
    "www.facebook.com" "/tr" (some [("gtm", "GTM-ABCDEFG"), ("en", "purchase")])
    (by intro pc hpc; rw [List.mem_singleton] at hpc; subst hpc; decide)
    (fun c hc => absurd hc (List.not_mem_nil c)) (by decide) (by decide)

end GA4Logger
